import Mathlib

/-!
Verification of `src/main.py` ("Adversarial Training for Free", a free /
adaptive adversarial training script for CIFAR-style datasets).

The script is shallowly embedded as follows.

* Tensors are flattened lists of rationals (`Tensor := List ℚ`); the
  pixel arithmetic the training loop performs on them (elementwise add,
  `torch.sign`, `torch.clamp`) is translated elementwise.
* The network, its weights, the autodiff engine and the SGD optimizer are
  abstracted: the weights live in an arbitrary type `W`, the gradient of
  the cross-entropy loss with respect to the adversarial input is an
  oracle `gradFn : W → Tensor → List Nat → Tensor` (weights, adversarial
  input, targets), and `optimizer.step()` after `loss.backward()` is an
  oracle `optFn : W → Tensor → List Nat → W`.  Everything the claims are
  about — the perturbation-buffer algebra, the loop structure, the
  checkpointing discipline, the attack configurations — is translated
  concretely from the source.
* The advertorch attack objects are modelled by their configuration
  records (`AttackConfig`): their constructor arguments in the source.
* The filesystem used by `torch.save` / `torch.load` is a partial map
  from paths to checkpoint records.
-/

/-- Flattened tensor of rationals (a `(B, 3, 32, 32)` tensor is the list
of its `B*3*32*32` entries). -/
abbrev Tensor := List ℚ

/-- `torch.sign` on one entry: `1` for positive, `-1` for negative, `0` at `0`. -/
def signQ (x : ℚ) : ℚ :=
  if 0 < x then 1 else if x < 0 then -1 else 0

/-- `torch.clamp(x, lo, hi)` on one entry: `min (max x lo) hi`. -/
def clampQ (lo hi x : ℚ) : ℚ :=
  min (max x lo) hi

/-- Elementwise tensor addition (`inputs + delta` in line 189). -/
def Tensor.add (a b : Tensor) : Tensor :=
  List.zipWith (fun x y => x + y) a b

/-- Line 196: `delta = delta.detach() + epsilon * torch.sign(grad.detach())`. -/
def signGradStep (eps : ℚ) (delta grad : Tensor) : Tensor :=
  List.zipWith (fun d g => d + eps * signQ g) delta grad

/-- Elementwise `torch.clamp(t, lo, hi)`. -/
def clampTensor (lo hi : ℚ) (t : Tensor) : Tensor :=
  t.map (clampQ lo hi)

/-- Lines 196-197: the perturbation-buffer update,
`delta = torch.clamp(delta + epsilon * torch.sign(grad), -epsilon, epsilon)`. -/
def deltaUpdate (eps : ℚ) (delta grad : Tensor) : Tensor :=
  clampTensor (-eps) eps (signGradStep eps delta grad)

/-- The parsed command-line arguments (lines 23-32), with the argparse
defaults recorded in `defaultArgs`. -/
structure Args where
  seed : Nat
  momentum : ℚ
  weight_decay : ℚ
  epsilon : ℚ
  m : Nat
  batch_size : Nat
  resume : Option Nat
  datasets : String
  deriving DecidableEq

/-- The argparse defaults: seed 11111, momentum 0.9, weight decay 5e-4,
epsilon 8/255, m 8, batch size 128, no resume, CIFAR10. -/
def defaultArgs : Args :=
  { seed := 11111
    momentum := 9 / 10
    weight_decay := 5 / 10000
    epsilon := 8 / 255
    m := 8
    batch_size := 128
    resume := none
    datasets := "CIFAR10" }

/-- Line 76: `epsilon = args.epsilon`. -/
def trainEpsilon (a : Args) : ℚ := a.epsilon

/-- Line 77: `m = args.m`. -/
def trainM (a : Args) : Nat := a.m

/-- Line 78: `delta = torch.zeros(args.batch_size, 3, 32, 32)`, flattened. -/
def initDelta (batchSize : Nat) : Tensor :=
  List.replicate (batchSize * 3 * 32 * 32) 0

/-- One minibatch as delivered by the train loader: input pixels and
integer class targets. -/
structure Batch where
  inputs : Tensor
  targets : List Nat
  deriving DecidableEq

/-- The mutable training state threaded through the loops: the network
weights (abstract type `W`) and the global perturbation buffer `delta`. -/
structure TrainState (W : Type) where
  weights : W
  delta : Tensor

/-- One inner iteration of the training loop (lines 187-197), together
with the adversarial input it fed to the network:

* line 189: `adv = (inputs + delta).detach()` — no clamping;
* lines 191-195: forward, cross-entropy loss, backward; `grad` is the
  gradient of the loss with respect to `adv`, supplied by the oracle
  `gradFn` at the pre-step weights (line 194's `optimizer.step()` updates
  the weights but does not touch `adv.grad`);
* line 194: `optimizer.step()`, supplied by the oracle `optFn`;
* lines 196-197: the sign-gradient buffer update followed by the clamp. -/
def innerStepFull {W : Type} (gradFn : W → Tensor → List Nat → Tensor)
    (optFn : W → Tensor → List Nat → W) (eps : ℚ) (b : Batch)
    (s : TrainState W) : TrainState W × Tensor :=
  let adv := Tensor.add b.inputs s.delta
  let g := gradFn s.weights adv b.targets
  let w := optFn s.weights adv b.targets
  (⟨w, deltaUpdate eps s.delta g⟩, adv)

/-- The state transformer of one inner iteration. -/
def innerStep {W : Type} (gradFn : W → Tensor → List Nat → Tensor)
    (optFn : W → Tensor → List Nat → W) (eps : ℚ) (b : Batch)
    (s : TrainState W) : TrainState W :=
  (innerStepFull gradFn optFn eps b s).1

/-- `for i in range(n)` over the inner iteration (line 187 with `n = m`). -/
def runInner {W : Type} (gradFn : W → Tensor → List Nat → Tensor)
    (optFn : W → Tensor → List Nat → W) (eps : ℚ) (b : Batch) :
    Nat → TrainState W → TrainState W
  | 0, s => s
  | Nat.succ k, s => runInner gradFn optFn eps b k (innerStep gradFn optFn eps b s)

/-- The adversarial input computed by inner iteration `i` (0-indexed)
of a batch: the `adv` of line 189 in that iteration. -/
def advUsedAt {W : Type} (gradFn : W → Tensor → List Nat → Tensor)
    (optFn : W → Tensor → List Nat → W) (eps : ℚ) (b : Batch) (i : Nat)
    (s : TrainState W) : Tensor :=
  (innerStepFull gradFn optFn eps b (runInner gradFn optFn eps b i s)).2

/-- The claimed buffer-update formula, written exactly as the claim
words it: the new buffer is elementwise
`clamp(delta + epsilon * sign(grad), -epsilon, +epsilon)`. -/
def specBufferUpdate (eps : ℚ) (delta grad : Tensor) : Tensor :=
  List.zipWith (fun d g => clampQ (-eps) eps (d + eps * signQ g)) delta grad

theorem zipWith_map_comp (f : ℚ → ℚ) (g : ℚ → ℚ → ℚ) :
    ∀ (a b : List ℚ),
      (List.zipWith g a b).map f = List.zipWith (fun x y => f (g x y)) a b
  | [], _ => by simp
  | _ :: _, [] => by simp
  | x :: xs, y :: ys => by
      simp [List.zipWith, zipWith_map_comp f g xs ys]

/-- The observable operations of one inner iteration, in source order
(lines 188-197): `optimizer.zero_grad()`, `outputs = net(adv)`,
`loss = F.cross_entropy(outputs, targets)`, `loss.backward()`,
`optimizer.step()`, the sign-gradient ascent on `delta`, the clamp. -/
inductive Event where
  | zeroGrad
  | forward
  | lossCE
  | backward
  | optimStep
  | deltaAscent
  | deltaClamp
  deriving DecidableEq

/-- The event sequence of one inner iteration, read off lines 188-197. -/
def innerStepEvents : List Event :=
  [Event.zeroGrad, Event.forward, Event.lossCE, Event.backward,
   Event.optimStep, Event.deltaAscent, Event.deltaClamp]

/-- The event sequence of one batch: `for i in range(n)` around the
inner iteration (line 187 with `n = m`). -/
def batchEvents : Nat → List Event
  | 0 => []
  | Nat.succ k => innerStepEvents ++ batchEvents k

theorem runInner_succ {W : Type} (gradFn : W → Tensor → List Nat → Tensor)
    (optFn : W → Tensor → List Nat → W) (eps : ℚ) (b : Batch) :
    ∀ (i : Nat) (s : TrainState W),
      runInner gradFn optFn eps b (i + 1) s
        = innerStep gradFn optFn eps b (runInner gradFn optFn eps b i s)
  | 0, _ => rfl
  | Nat.succ k, s =>
      runInner_succ gradFn optFn eps b k (innerStep gradFn optFn eps b s)

theorem batchEvents_count_optimStep :
    ∀ n : Nat, (batchEvents n).count Event.optimStep = n
  | 0 => rfl
  | Nat.succ k => by
      have ih := batchEvents_count_optimStep k
      simp [batchEvents, List.count_append, ih, innerStepEvents]

theorem batchEvents_replicate :
    ∀ n : Nat, batchEvents n = (List.replicate n innerStepEvents).flatten
  | 0 => rfl
  | Nat.succ k => by
      simp [batchEvents, List.replicate, batchEvents_replicate k]

/-- Claim C1: every inner training step updates the perturbation buffer
by sign-gradient ascent: the new buffer equals
`clamp(delta + epsilon * sign(grad), -epsilon, +epsilon)` elementwise,
where `grad` is the gradient of the cross-entropy loss with respect to
the adversarial input `inputs + delta` of that step, and `epsilon` is
the `--epsilon` argument, whose default is `8/255`. -/
theorem c1_buffer_update_is_sign_gradient_ascent {W : Type}
    (gradFn : W → Tensor → List Nat → Tensor)
    (optFn : W → Tensor → List Nat → W) (eps : ℚ) (b : Batch)
    (s : TrainState W) :
    (innerStep gradFn optFn eps b s).delta
      = specBufferUpdate eps s.delta
          (gradFn s.weights (Tensor.add b.inputs s.delta) b.targets)
    ∧ defaultArgs.epsilon = 8 / 255 := by
  constructor
  · show deltaUpdate eps s.delta _ = _
    unfold deltaUpdate clampTensor specBufferUpdate signGradStep
    exact zipWith_map_comp _ _ _ _
  · rfl

/-- Claim C2: every training batch runs exactly `m` inner iterations
(`m` from `--m`, default 8); each iteration performs, in order, zero
gradients, forward pass on `inputs + delta`, cross-entropy loss,
backward pass, optimizer step, then the sign-gradient buffer update
followed by the clamp; and the adversarial input of iteration `i+1`
is built from the buffer produced at the end of iteration `i`. -/
theorem c2_batch_runs_m_ordered_inner_steps {W : Type}
    (gradFn : W → Tensor → List Nat → Tensor)
    (optFn : W → Tensor → List Nat → W) (eps : ℚ) (b : Batch)
    (s : TrainState W) (mm i : Nat) :
    batchEvents mm
      = (List.replicate mm
          [Event.zeroGrad, Event.forward, Event.lossCE, Event.backward,
           Event.optimStep, Event.deltaAscent, Event.deltaClamp]).flatten
    ∧ (batchEvents mm).count Event.optimStep = mm
    ∧ runInner gradFn optFn eps b (i + 1) s
        = innerStep gradFn optFn eps b (runInner gradFn optFn eps b i s)
    ∧ advUsedAt gradFn optFn eps b (i + 1) s
        = Tensor.add b.inputs ((runInner gradFn optFn eps b (i + 1) s).delta)
    ∧ trainM defaultArgs = 8 := by
  refine ⟨batchEvents_replicate mm, batchEvents_count_optimStep mm,
    runInner_succ gradFn optFn eps b i s, rfl, rfl⟩

/-- Lines 185-197: processing one batch runs the `m` inner iterations
on the incoming state. -/
def runBatchFn {W : Type} (gradFn : W → Tensor → List Nat → Tensor)
    (optFn : W → Tensor → List Nat → W) (eps : ℚ) (mm : Nat)
    (s : TrainState W) (b : Batch) : TrainState W :=
  runInner gradFn optFn eps b mm s

/-- One call of `train` (lines 182-203): the batch loop folds over the
loader's batches; `delta` is declared `global` (line 183), so the state
is threaded through with no reinitialization. -/
def runEpoch {W : Type} (gradFn : W → Tensor → List Nat → Tensor)
    (optFn : W → Tensor → List Nat → W) (eps : ℚ) (mm : Nat)
    (batches : List Batch) (s : TrainState W) : TrainState W :=
  batches.foldl (runBatchFn gradFn optFn eps mm) s

/-- The state after the first `k` batches of an epoch. -/
def stateAfterBatches {W : Type} (gradFn : W → Tensor → List Nat → Tensor)
    (optFn : W → Tensor → List Nat → W) (eps : ℚ) (mm : Nat)
    (batches : List Batch) (k : Nat) (s : TrainState W) : TrainState W :=
  (batches.take k).foldl (runBatchFn gradFn optFn eps mm) s

/-- The state after the first `j` epochs of the epoch loop
(lines 238-240, one `train` call per epoch). -/
def stateAfterEpochs {W : Type} (gradFn : W → Tensor → List Nat → Tensor)
    (optFn : W → Tensor → List Nat → W) (eps : ℚ) (mm : Nat)
    (epochs : List (List Batch)) (j : Nat) (s : TrainState W) : TrainState W :=
  (epochs.take j).foldl
    (fun t batches => runEpoch gradFn optFn eps mm batches t) s

theorem foldl_take_succ {α β : Type} (f : β → α → β) :
    ∀ (l : List α) (k : Nat), k < l.length → ∀ (b : β) (d : α),
      (l.take (k + 1)).foldl f b = f ((l.take k).foldl f b) (l.getD k d)
  | [], k, hk => by simp at hk
  | x :: xs, 0, _ => by simp
  | x :: xs, Nat.succ k, hk => by
      intro b d
      have ih := foldl_take_succ f xs k (by simpa using hk) (f b x) d
      simpa using ih

/-- Claim C3: the perturbation buffer is persistent.  It is initialized
once to the all-zeros tensor of shape `(batch_size, 3, 32, 32)` before
training; within an epoch the state entering batch `k+1` is exactly the
state left by batch `k` (no reset at a batch boundary); and the state
entering epoch `j+1` is exactly the state left by epoch `j` (no reset
at an epoch boundary). -/
theorem c3_delta_buffer_persists {W : Type}
    (gradFn : W → Tensor → List Nat → Tensor)
    (optFn : W → Tensor → List Nat → W) (eps : ℚ) (mm bs k j : Nat)
    (batches : List Batch) (epochs : List (List Batch)) (s : TrainState W)
    (hk : k < batches.length) (hj : j < epochs.length) :
    ((initDelta bs).length = bs * 3 * 32 * 32 ∧ ∀ x ∈ initDelta bs, x = 0)
    ∧ stateAfterBatches gradFn optFn eps mm batches (k + 1) s
        = runBatchFn gradFn optFn eps mm
            (stateAfterBatches gradFn optFn eps mm batches k s)
            (batches.getD k ⟨[], []⟩)
    ∧ stateAfterEpochs gradFn optFn eps mm epochs (j + 1) s
        = runEpoch gradFn optFn eps mm (epochs.getD j [])
            (stateAfterEpochs gradFn optFn eps mm epochs j s) := by
  refine ⟨⟨by simp [initDelta], ?_⟩, ?_, ?_⟩
  · intro x hx
    exact (List.eq_of_mem_replicate hx)
  · exact foldl_take_succ _ batches k hk s ⟨[], []⟩
  · exact foldl_take_succ _ epochs j hj s []

/-- Witness for C3: the batch-boundary persistence equation at a
one-batch epoch with trivial oracles. -/
theorem c3_delta_buffer_persists_witness :
    stateAfterBatches (W := Unit) (fun _ _ _ => []) (fun w _ _ => w)
        (8 / 255) 1 [⟨[0], [0]⟩] 1 ⟨(), []⟩
      = runBatchFn (fun _ _ _ => []) (fun w _ _ => w) (8 / 255) 1
          (stateAfterBatches (fun _ _ _ => []) (fun w _ _ => w)
            (8 / 255) 1 [⟨[0], [0]⟩] 0 ⟨(), []⟩)
          (List.getD [⟨[0], [0]⟩] 0 ⟨[], []⟩) :=
  (c3_delta_buffer_persists (fun _ _ _ => []) (fun w _ _ => w) (8 / 255)
    1 1 0 0 [⟨[0], [0]⟩] [[]] ⟨(), []⟩ (by decide) (by decide)).2.1

/-- All entries of a tensor lie in `[-eps, eps]`. -/
def inBall (eps : ℚ) (t : Tensor) : Prop :=
  ∀ x ∈ t, -eps ≤ x ∧ x ≤ eps

theorem clampQ_mem_ball (eps x : ℚ) (heps : 0 ≤ eps) :
    -eps ≤ clampQ (-eps) eps x ∧ clampQ (-eps) eps x ≤ eps := by
  unfold clampQ
  exact ⟨le_min (le_max_right x (-eps)) (neg_le_self heps), min_le_right _ _⟩

theorem deltaUpdate_inBall (eps : ℚ) (heps : 0 ≤ eps) (d g : Tensor) :
    inBall eps (deltaUpdate eps d g) := by
  intro x hx
  unfold deltaUpdate clampTensor at hx
  rcases List.mem_map.1 hx with ⟨y, _, rfl⟩
  exact clampQ_mem_ball eps y heps

theorem runInner_delta_inBall {W : Type}
    (gradFn : W → Tensor → List Nat → Tensor)
    (optFn : W → Tensor → List Nat → W) (eps : ℚ) (heps : 0 ≤ eps)
    (b : Batch) :
    ∀ (i : Nat) (s : TrainState W), inBall eps s.delta →
      inBall eps ((runInner gradFn optFn eps b i s).delta)
  | 0, _, h => h
  | Nat.succ k, s, _ =>
      runInner_delta_inBall gradFn optFn eps heps b k
        (innerStep gradFn optFn eps b s)
        (deltaUpdate_inBall eps heps s.delta _)

theorem foldl_batches_delta_inBall {W : Type}
    (gradFn : W → Tensor → List Nat → Tensor)
    (optFn : W → Tensor → List Nat → W) (eps : ℚ) (heps : 0 ≤ eps)
    (mm : Nat) :
    ∀ (batches : List Batch) (s : TrainState W), inBall eps s.delta →
      inBall eps ((batches.foldl (runBatchFn gradFn optFn eps mm) s).delta)
  | [], _, h => h
  | b :: bs, s, h =>
      foldl_batches_delta_inBall gradFn optFn eps heps mm bs
        (runBatchFn gradFn optFn eps mm s b)
        (runInner_delta_inBall gradFn optFn eps heps b mm s h)

theorem foldl_epochs_delta_inBall {W : Type}
    (gradFn : W → Tensor → List Nat → Tensor)
    (optFn : W → Tensor → List Nat → W) (eps : ℚ) (heps : 0 ≤ eps)
    (mm : Nat) :
    ∀ (epochsData : List (List Batch)) (s : TrainState W), inBall eps s.delta →
      inBall eps ((epochsData.foldl
        (fun t batches => runEpoch gradFn optFn eps mm batches t) s).delta)
  | [], _, h => h
  | batches :: rest, s, h =>
      foldl_epochs_delta_inBall gradFn optFn eps heps mm rest
        (runEpoch gradFn optFn eps mm batches s)
        (foldl_batches_delta_inBall gradFn optFn eps heps mm batches s h)

/-- The training state at an arbitrary intermediate point of the run:
after `e` full epochs, then `bi` full batches of epoch `e`, then `i`
inner iterations of the next batch. -/
def midState {W : Type} (gradFn : W → Tensor → List Nat → Tensor)
    (optFn : W → Tensor → List Nat → W) (eps : ℚ) (mm : Nat)
    (epochsData : List (List Batch)) (e bi i : Nat) (s : TrainState W) :
    TrainState W :=
  let se := stateAfterEpochs gradFn optFn eps mm epochsData e s
  let batches := epochsData.getD e []
  let sb := stateAfterBatches gradFn optFn eps mm batches bi se
  runInner gradFn optFn eps (batches.getD bi ⟨[], []⟩) i sb

/-- Claim C4: provided `epsilon ≥ 0`, every entry of the perturbation
buffer lies in `[-epsilon, +epsilon]` at every point of training: the
all-zeros initial buffer is inside the ball, and from any state whose
buffer is inside the ball, the buffer at any intermediate point —
after any number of epochs, batches and inner iterations — stays
inside the ball, because every update ends with the elementwise clamp
to `[-epsilon, +epsilon]`. -/
theorem c4_delta_always_in_epsilon_ball {W : Type}
    (gradFn : W → Tensor → List Nat → Tensor)
    (optFn : W → Tensor → List Nat → W) (eps : ℚ) (mm bs : Nat)
    (heps : 0 ≤ eps) :
    (∀ x ∈ initDelta bs, -eps ≤ x ∧ x ≤ eps)
    ∧ ∀ (epochsData : List (List Batch)) (e bi i : Nat) (s : TrainState W),
        inBall eps s.delta →
        ∀ x ∈ (midState gradFn optFn eps mm epochsData e bi i s).delta,
          -eps ≤ x ∧ x ≤ eps := by
  constructor
  · intro x hx
    rw [List.eq_of_mem_replicate hx]
    exact ⟨neg_nonpos.mpr heps, heps⟩
  · intro epochsData e bi i s h
    exact runInner_delta_inBall gradFn optFn eps heps _ i _
      (foldl_batches_delta_inBall gradFn optFn eps heps mm _ _
        (foldl_epochs_delta_inBall gradFn optFn eps heps mm _ s h))

/-- Witness for C4: the zero buffer entry at `epsilon = 8/255` lies in
the ball at the intermediate point `(0, 0, 0)` of a one-batch run. -/
theorem c4_delta_always_in_epsilon_ball_witness :
    -(8 / 255 : ℚ) ≤ 0 ∧ (0 : ℚ) ≤ 8 / 255 :=
  (c4_delta_always_in_epsilon_ball (W := Unit) (fun _ _ _ => [1])
      (fun w _ _ => w) (8 / 255) 1 1 (by norm_num)).2
    [[⟨[0], [0]⟩]] 0 0 0 ⟨(), [0]⟩
    (by
      intro x hx
      rw [List.mem_singleton] at hx
      subst hx
      norm_num)
    0 (List.mem_singleton.mpr rfl)

/-- The kind of advertorch attack object used by the script. -/
inductive AttackKind where
  | linfPGD
  | fgsm
  deriving DecidableEq

/-- The constructor arguments of an advertorch attack object as they
appear in lines 94-107.  `nb_iter`, `eps_iter` and `rand_init` are
`none` for FGSM, whose constructor does not take them. -/
structure AttackConfig where
  kind : AttackKind
  eps : ℚ
  nb_iter : Option Nat
  eps_iter : Option ℚ
  rand_init : Option Bool
  clip_min : ℚ
  clip_max : ℚ
  targeted : Bool
  deriving DecidableEq

/-- Lines 94-97: `adversary = LinfPGDAttack(net, ..., eps=8./255,
nb_iter=20, eps_iter=2./255, rand_init=True, clip_min=0.0,
clip_max=1.0, targeted=False)`.  The constructor reads no command-line
argument: every field is a literal. -/
def mkAdversary (_ : Args) : AttackConfig :=
  { kind := AttackKind.linfPGD
    eps := 8 / 255
    nb_iter := some 20
    eps_iter := some (2 / 255)
    rand_init := some true
    clip_min := 0
    clip_max := 1
    targeted := false }

/-- Lines 99-102: `adversary_50`, identical except `nb_iter=50`. -/
def mkAdversary50 (_ : Args) : AttackConfig :=
  { kind := AttackKind.linfPGD
    eps := 8 / 255
    nb_iter := some 50
    eps_iter := some (2 / 255)
    rand_init := some true
    clip_min := 0
    clip_max := 1
    targeted := false }

/-- Lines 104-107: `adversary_FGSM = FGSM(net, ..., eps=8./255,
clip_min=0.0, clip_max=1.0, targeted=False)`. -/
def mkAdversaryFGSM (_ : Args) : AttackConfig :=
  { kind := AttackKind.fgsm
    eps := 8 / 255
    nb_iter := none
    eps_iter := none
    rand_init := none
    clip_min := 0
    clip_max := 1
    targeted := false }

/-- The attacks the training loop evaluates under at the end of each
epoch: `train` calls only `test(epoch)` (line 208), and `test` perturbs
with `adversary` (line 119). -/
def epochEndAttacks (a : Args) : List AttackConfig :=
  [mkAdversary a]

/-- The attacks run by the final evaluation block (lines 247-249):
`test(111)`, `test_50(111)`, `test_fgsm(111)`. -/
def finalAttacks (a : Args) : List AttackConfig :=
  [mkAdversary a, mkAdversary50 a, mkAdversaryFGSM a]

/-- The dictionary written by `torch.save` (lines 214-219): network
state, the epoch's train accuracy, the epoch number, the RNG state. -/
structure Checkpoint (W R : Type) where
  net : W
  acc : ℚ
  epoch : Nat
  rng_state : R

/-- Line 222 / line 243: the checkpoint path
`'./checkpoint/best' + args.datasets`. -/
def ckptPath (datasets : String) : String :=
  "./checkpoint/best" ++ datasets

/-- The filesystem, as a partial map from paths to saved checkpoints. -/
abbrev FS (W R : Type) := String → Option (Checkpoint W R)

/-- The checkpointing state: the global running maximum `max_acc`
(line 236, initialized to 0) and the filesystem. -/
structure CkptState (W R : Type) where
  maxAcc : ℚ
  fs : FS W R

/-- Lines 209-222 of `train`, after `tmp_acc = test(epoch)`: if
`max_acc < tmp_acc`, set `max_acc = tmp_acc` and `torch.save` the
checkpoint to `'./checkpoint/best' + args.datasets`; otherwise leave
both the running maximum and the filesystem untouched. -/
def saveBest {W R : Type} (datasets : String) (epoch : Nat)
    (trainAcc tmpAcc : ℚ) (w : W) (rng : R) (s : CkptState W R) :
    CkptState W R :=
  if s.maxAcc < tmpAcc then
    { maxAcc := tmpAcc
      fs := fun p =>
        if p = ckptPath datasets then some ⟨w, trainAcc, epoch, rng⟩
        else s.fs p }
  else s

/-- The end-of-epoch phase of `train` (lines 205-223): evaluate once
with the PGD-20 adversary (`tmp_acc = test(epoch)`, line 208), then
conditionally save.  `accOf` is the oracle giving the test accuracy
obtained under a given attack configuration. -/
def epochEndPhase {W R : Type} (a : Args) (epoch : Nat) (trainAcc : ℚ)
    (accOf : AttackConfig → ℚ) (w : W) (rng : R) (s : CkptState W R) :
    CkptState W R :=
  saveBest a.datasets epoch trainAcc (accOf (mkAdversary a)) w rng s

/-- One epoch's inputs to the end-of-epoch phase. -/
structure EpochEval (W R : Type) where
  epoch : Nat
  trainAcc : ℚ
  tmpAcc : ℚ
  netState : W
  rng : R

/-- The checkpointing discipline over a whole run: `saveBest` folded
over the per-epoch results, from the initial `max_acc` of the state. -/
def runSaves {W R : Type} (datasets : String)
    (evals : List (EpochEval W R)) (s : CkptState W R) : CkptState W R :=
  evals.foldl
    (fun t ev => saveBest datasets ev.epoch ev.trainAcc ev.tmpAcc
      ev.netState ev.rng t) s

/-- The final evaluation block (lines 242-249): reload the best saved
checkpoint into the network and evaluate it under the PGD-20, PGD-50
and FGSM adversaries; `none` when the checkpoint file is absent
(`torch.load` would fail). -/
def finalPhase {W R : Type} (a : Args) (fs : FS W R) :
    Option (W × List AttackConfig) :=
  (fs (ckptPath a.datasets)).map (fun c => (c.net, finalAttacks a))

/-- Lines 83-90: the resume block.  With `--resume` given it asserts
that the checkpoint directory exists — aborting with the line-86
assertion message otherwise — then loads the checkpoint and sets
`start_epoch = checkpoint['epoch'] + 1`; with no `--resume` it does
nothing and `start_epoch` stays 0. -/
def resumeBlock {W R : Type} (resume : Option Nat) (ckptDirExists : Bool)
    (loadCkpt : Nat → Checkpoint W R) :
    Except String (Nat × Option (Checkpoint W R)) :=
  match resume with
  | none => Except.ok (0, none)
  | some r =>
      if ckptDirExists then
        let c := loadCkpt r
        Except.ok (c.epoch + 1, some c)
      else
        Except.error "Error: no checkpoint directory found!"

/-- Whether the resume block completed without aborting. -/
def resumeOk {W R : Type}
    (x : Except String (Nat × Option (Checkpoint W R))) : Bool :=
  match x with
  | Except.ok _ => true
  | Except.error _ => false

theorem saveBest_maxAcc {W R : Type} (ds : String) (ep : Nat)
    (ta tmp : ℚ) (w : W) (rng : R) (s : CkptState W R) :
    (saveBest ds ep ta tmp w rng s).maxAcc = max s.maxAcc tmp := by
  unfold saveBest
  by_cases h : s.maxAcc < tmp
  · simp [h, max_eq_right (le_of_lt h)]
  · simp [h, max_eq_left (le_of_not_lt h)]

theorem runSaves_maxAcc {W R : Type} (ds : String) :
    ∀ (evals : List (EpochEval W R)) (s : CkptState W R),
      (runSaves ds evals s).maxAcc
        = (evals.map EpochEval.tmpAcc).foldl max s.maxAcc
  | [], _ => rfl
  | ev :: rest, s => by
      show (runSaves ds rest
        (saveBest ds ev.epoch ev.trainAcc ev.tmpAcc ev.netState ev.rng s)).maxAcc = _
      rw [runSaves_maxAcc ds rest, saveBest_maxAcc]
      rfl

/-- Claim C5 counterexample: at the end of a training epoch the model
is evaluated under one fixed attack configuration, not three — the
per-epoch evaluation list is a singleton and differs from the
three-attack list run by the final block. -/
theorem c5_counterexample_epoch_end_uses_one_attack :
    (epochEndAttacks defaultArgs).length = 1
    ∧ epochEndAttacks defaultArgs ≠ finalAttacks defaultArgs := by
  refine ⟨rfl, fun h => ?_⟩
  have hlen := congrArg List.length h
  simp [epochEndAttacks, finalAttacks] at hlen

/-- Claim C5 (amended): at the end of every training epoch the model is
evaluated under exactly one fixed attack configuration — L-infinity
PGD-20 with eps 8/255, step 2/255, clipping to [0, 1] — and the best
checkpoint is conditionally persisted based on that evaluation; the
evaluation under the three fixed attack configurations (PGD-20, PGD-50,
FGSM) runs once, after the epoch loop. -/
theorem c5_amended_epoch_end_single_attack {W R : Type} (a : Args)
    (ep : Nat) (ta : ℚ) (accOf : AttackConfig → ℚ) (w : W) (rng : R)
    (s : CkptState W R) :
    epochEndAttacks a = [mkAdversary a]
    ∧ mkAdversary a
        = ⟨AttackKind.linfPGD, 8 / 255, some 20, some (2 / 255),
           some true, 0, 1, false⟩
    ∧ epochEndPhase a ep ta accOf w rng s
        = saveBest a.datasets ep ta (accOf (mkAdversary a)) w rng s
    ∧ finalAttacks a = [mkAdversary a, mkAdversary50 a, mkAdversaryFGSM a] :=
  ⟨rfl, rfl, rfl, rfl⟩

/-- Claim C6: during training a checkpoint (network state, accuracy,
epoch number, RNG state) is written to `'./checkpoint/best' +
args.datasets` exactly when the current epoch's PGD-20 test accuracy
strictly exceeds the running maximum of the previous epochs' test
accuracies; when it does not, neither the filesystem nor the running
maximum changes; and over a whole run the running maximum is the max of
the per-epoch test accuracies, starting at 0. -/
theorem c6_checkpoint_saved_iff_strictly_better {W R : Type}
    (ds : String) (ep : Nat) (ta tmp : ℚ) (w : W) (rng : R)
    (s : CkptState W R) (evals : List (EpochEval W R)) (fs0 : FS W R) :
    (s.maxAcc < tmp →
      (saveBest ds ep ta tmp w rng s).maxAcc = tmp
      ∧ (saveBest ds ep ta tmp w rng s).fs (ckptPath ds)
          = some ⟨w, ta, ep, rng⟩
      ∧ ∀ p, p ≠ ckptPath ds →
          (saveBest ds ep ta tmp w rng s).fs p = s.fs p)
    ∧ (¬ s.maxAcc < tmp → saveBest ds ep ta tmp w rng s = s)
    ∧ (saveBest ds ep ta tmp w rng s).maxAcc = max s.maxAcc tmp
    ∧ (runSaves ds evals ⟨0, fs0⟩).maxAcc
        = (evals.map EpochEval.tmpAcc).foldl max 0
    ∧ ckptPath ds = "./checkpoint/best" ++ ds := by
  refine ⟨fun h => ?_, fun h => ?_,
    saveBest_maxAcc ds ep ta tmp w rng s,
    runSaves_maxAcc ds evals ⟨0, fs0⟩, rfl⟩
  · unfold saveBest
    rw [if_pos h]
    exact ⟨rfl, by simp, fun p hp => by simp [hp]⟩
  · unfold saveBest
    simp [h]

/-- Witness for C6: with the running maximum at 0 and a test accuracy
of 60, the checkpoint is written at the best-checkpoint path. -/
theorem c6_checkpoint_saved_iff_strictly_better_witness :
    (saveBest (W := Unit) (R := Unit) "CIFAR10" 3 50 60 () ()
        ⟨0, fun _ => none⟩).fs (ckptPath "CIFAR10")
      = some ⟨(), 50, 3, ()⟩ :=
  ((c6_checkpoint_saved_iff_strictly_better "CIFAR10" 3 50 60 () ()
      ⟨0, fun _ => none⟩ [] (fun _ => none)).1 (by norm_num)).2.1

/-- Claim C7: after the epoch loop the best saved checkpoint is loaded
back into the network and evaluated under exactly three attacks —
L-infinity PGD with 20 iterations, L-infinity PGD with 50 iterations,
and FGSM — each with eps 8/255, PGD step size 2/255, and outputs
clipped to [0, 1]. -/
theorem c7_final_eval_three_attacks {W R : Type} (a : Args)
    (fs : FS W R) (c : Checkpoint W R)
    (h : fs (ckptPath a.datasets) = some c) :
    finalPhase a fs = some (c.net,
      [⟨AttackKind.linfPGD, 8 / 255, some 20, some (2 / 255),
        some true, 0, 1, false⟩,
       ⟨AttackKind.linfPGD, 8 / 255, some 50, some (2 / 255),
        some true, 0, 1, false⟩,
       ⟨AttackKind.fgsm, 8 / 255, none, none, none, 0, 1, false⟩]) := by
  unfold finalPhase
  rw [h]
  rfl

/-- Witness for C7: a filesystem holding a checkpoint at the
best-checkpoint path. -/
theorem c7_final_eval_three_attacks_witness :
    finalPhase (W := Unit) (R := Unit) defaultArgs (fun _ => some ⟨(), 0, 0, ()⟩)
      = some ((),
        [⟨AttackKind.linfPGD, 8 / 255, some 20, some (2 / 255),
          some true, 0, 1, false⟩,
         ⟨AttackKind.linfPGD, 8 / 255, some 50, some (2 / 255),
          some true, 0, 1, false⟩,
         ⟨AttackKind.fgsm, 8 / 255, none, none, none, 0, 1, false⟩]) :=
  c7_final_eval_three_attacks defaultArgs (fun _ => some ⟨(), 0, 0, ()⟩)
    ⟨(), 0, 0, ()⟩ rfl

/-- Claim C8: the evaluation attacks are constructed with hardcoded
eps 8/255 (and PGD step 2/255), independent of `--epsilon`: for any two
epsilon values the attack configurations used by `test`, `test_50` and
`test_fgsm` coincide, while the training loop reads `--epsilon`
(line 76) and the buffer update genuinely depends on it. -/
theorem c8_attacks_independent_of_epsilon (a : Args) (e1 e2 : ℚ) :
    finalAttacks { a with epsilon := e1 } = finalAttacks { a with epsilon := e2 }
    ∧ epochEndAttacks { a with epsilon := e1 }
        = epochEndAttacks { a with epsilon := e2 }
    ∧ (mkAdversary a).eps = 8 / 255
    ∧ (mkAdversary50 a).eps = 8 / 255
    ∧ (mkAdversaryFGSM a).eps = 8 / 255
    ∧ (mkAdversary a).eps_iter = some (2 / 255)
    ∧ (mkAdversary50 a).eps_iter = some (2 / 255)
    ∧ trainEpsilon a = a.epsilon
    ∧ deltaUpdate 1 [0] [1] ≠ deltaUpdate 2 [0] [1] := by
  refine ⟨rfl, rfl, rfl, rfl, rfl, rfl, rfl, rfl, fun hc => ?_⟩
  have h1 : deltaUpdate 1 [0] [1] = [(1 : ℚ)] := by
    norm_num [deltaUpdate, clampTensor, signGradStep, signQ, clampQ,
      List.zipWith, min_def, max_def]
  have h2 : deltaUpdate 2 [0] [1] = [(2 : ℚ)] := by
    norm_num [deltaUpdate, clampTensor, signGradStep, signQ, clampQ,
      List.zipWith, min_def, max_def]
  rw [h1, h2] at hc
  norm_num at hc

theorem mem_tensor_add :
    ∀ (a b : List ℚ) (y : ℚ), y ∈ Tensor.add a b →
      ∃ p ∈ a, ∃ q ∈ b, y = p + q
  | [], _, y, hy => by simp [Tensor.add] at hy
  | _ :: _, [], y, hy => by simp [Tensor.add] at hy
  | p :: ps, q :: qs, y, hy => by
      simp only [Tensor.add, List.zipWith_cons_cons, List.mem_cons] at hy
      rcases hy with h | h
      · exact ⟨p, List.mem_cons_self p ps, q, List.mem_cons_self q qs, h⟩
      · rcases mem_tensor_add ps qs y h with ⟨p1, hp1, q1, hq1, hy1⟩
        exact ⟨p1, List.mem_cons_of_mem p hp1, q1,
          List.mem_cons_of_mem q hq1, hy1⟩

/-- Claim C9: the adversarial input of the training forward pass is
`inputs + delta` with no clamping to the valid pixel range: with inputs
in `[0, 1]` and the buffer in `[-eps, eps]` every adversarial pixel
lies in `[-eps, 1 + eps]`, both extremes are attained, the attained
low extreme survives precisely because no `[0, 1]` clip is applied,
unlike the evaluation attacks, whose `clip_min`/`clip_max` are 0/1. -/
theorem c9_training_input_not_clipped {W : Type}
    (gradFn : W → Tensor → List Nat → Tensor)
    (optFn : W → Tensor → List Nat → W) (b : Batch) (s : TrainState W)
    (a : Args) (eps : ℚ) (heps : 0 < eps) :
    (innerStepFull gradFn optFn eps b s).2 = Tensor.add b.inputs s.delta
    ∧ (∀ inputs delta : Tensor, (∀ x ∈ inputs, 0 ≤ x ∧ x ≤ 1) →
        (∀ x ∈ delta, -eps ≤ x ∧ x ≤ eps) →
        ∀ y ∈ Tensor.add inputs delta, -eps ≤ y ∧ y ≤ 1 + eps)
    ∧ (∃ inputs delta : Tensor, (∀ x ∈ inputs, 0 ≤ x ∧ x ≤ 1)
        ∧ (∀ x ∈ delta, -eps ≤ x ∧ x ≤ eps)
        ∧ Tensor.add inputs delta = [-eps]
        ∧ clampTensor 0 1 (Tensor.add inputs delta) ≠ Tensor.add inputs delta)
    ∧ (∃ inputs delta : Tensor, (∀ x ∈ inputs, 0 ≤ x ∧ x ≤ 1)
        ∧ (∀ x ∈ delta, -eps ≤ x ∧ x ≤ eps)
        ∧ Tensor.add inputs delta = [1 + eps])
    ∧ (mkAdversary a).clip_min = 0 ∧ (mkAdversary a).clip_max = 1 := by
  refine ⟨rfl, ?_, ?_, ?_, rfl, rfl⟩
  · intro inputs delta hin hdel y hy
    rcases mem_tensor_add inputs delta y hy with ⟨p, hp, q, hq, rfl⟩
    rcases hin p hp with ⟨hp0, hp1⟩
    rcases hdel q hq with ⟨hq0, hq1⟩
    exact ⟨by linarith, by linarith⟩
  · refine ⟨[0], [-eps], ?_, ?_, ?_, ?_⟩
    · intro x hx
      rw [List.mem_singleton] at hx
      subst hx
      norm_num
    · intro x hx
      rw [List.mem_singleton] at hx
      subst hx
      exact ⟨le_refl _, by linarith⟩
    · simp [Tensor.add]
    · have hadd : Tensor.add [0] [-eps] = [-eps] := by simp [Tensor.add]
      have hmax : max (-eps) (0 : ℚ) = 0 := max_eq_right (by linarith)
      have hcl : clampTensor 0 1 [-eps] = [0] := by
        simp only [clampTensor, List.map_cons, List.map_nil, clampQ]
        rw [hmax, min_eq_left (by norm_num : (0 : ℚ) ≤ 1)]
      rw [hadd, hcl]
      intro hc
      simp only [List.cons.injEq, and_true] at hc
      linarith
  · refine ⟨[1], [eps], ?_, ?_, ?_⟩
    · intro x hx
      rw [List.mem_singleton] at hx
      subst hx
      norm_num
    · intro x hx
      rw [List.mem_singleton] at hx
      subst hx
      exact ⟨by linarith, le_refl _⟩
    · simp [Tensor.add]

/-- Witness for C9: the adversarial input of one concrete inner step
at `epsilon = 8/255` is exactly `inputs + delta`. -/
theorem c9_training_input_not_clipped_witness :
    (innerStepFull (W := Unit) (fun _ _ _ => []) (fun w _ _ => w)
        (8 / 255) ⟨[0], [0]⟩ ⟨(), [0]⟩).2 = Tensor.add [0] [0] :=
  (c9_training_input_not_clipped (fun _ _ _ => []) (fun w _ _ => w)
    ⟨[0], [0]⟩ ⟨(), [0]⟩ defaultArgs (8 / 255) (by norm_num)).1

/-- Claim C10 counterexample: the program does perform an explicit
error check of its own — with `--resume` given and no checkpoint
directory, the resume block aborts with the line-86 assertion
message. -/
theorem c10_counterexample_resume_assert :
    resumeBlock (W := Unit) (R := Unit) (some 5) false
        (fun _ => ⟨(), 0, 0, ()⟩)
      = Except.error "Error: no checkpoint directory found!"
    ∧ resumeOk (resumeBlock (W := Unit) (R := Unit) (some 5) false
        (fun _ => ⟨(), 0, 0, ()⟩)) = false :=
  ⟨rfl, rfl⟩

/-- Claim C10 (amended): the program's only explicit failure handling
is the single assert of the resume path — the resume block aborts
exactly when `--resume` is given and the checkpoint directory is
missing, always with the line-86 assertion message, and succeeds in
every other case; beyond this the script relies on the numeric
framework. -/
theorem c10_amended_single_resume_assert {W R : Type} (r : Option Nat)
    (d : Bool) (load : Nat → Checkpoint W R) :
    resumeOk (resumeBlock r d load) = (r.isNone || d)
    ∧ (∀ e, resumeBlock r d load = Except.error e →
        e = "Error: no checkpoint directory found!")
    ∧ resumeBlock none d load = Except.ok (0, none)
    ∧ (∀ n, resumeBlock (some n) true load
        = Except.ok ((load n).epoch + 1, some (load n))) := by
  refine ⟨?_, ?_, rfl, fun n => rfl⟩
  · cases r <;> cases d <;> rfl
  · intro e he
    cases r with
    | none => simp [resumeBlock] at he
    | some n =>
        cases d with
        | false =>
            simp only [resumeBlock, if_neg Bool.false_ne_true,
              Except.error.injEq] at he
            exact he.symm
        | true => simp [resumeBlock] at he

/-- Witness for C10 (amended): the resume block aborts on a concrete
resume request with the checkpoint directory missing. -/
theorem c10_amended_single_resume_assert_witness :
    resumeOk (resumeBlock (W := Unit) (R := Unit) (some 5) false
        (fun _ => ⟨(), 0, 0, ()⟩))
      = ((some 5 : Option Nat).isNone || false) :=
  (c10_amended_single_resume_assert (some 5) false
    (fun _ => ⟨(), 0, 0, ()⟩)).1
